import Mathlib

/-!
Shallow embedding of the x402-fetch-mcp server (src/index.js).

The program is an MCP server exposing two tools.  The `x402_fetch` tool wraps
a payment-aware fetch (`wrapFetchWithPayment` from the external x402-fetch
package), reads the final response, formats its body, looks up the settlement
header under two candidate names, decodes the settlement receipt, and returns
a structured JSON outcome.  All external runtime effects (the wrapped fetch,
body reading, base64/JSON settlement decoding) are modelled as oracle inputs
in a `World` structure; machine strings stay Lean `String`s and JavaScript
truthiness of nullable strings is modelled explicitly.
-/

namespace X402

/-- JavaScript truthiness of a string: every string except the empty string
is truthy. -/
def strTruthy (s : String) : Bool := s != ""

/-- JavaScript truthiness of a nullable string (`null` and `""` are falsy). -/
def optStrTruthy : Option String → Bool
  | some s => strTruthy s
  | none => false

/-- JavaScript `a || b` on nullable strings: yields `b` whenever `a` is
falsy (`null` or the empty string). -/
def jsOr (a b : Option String) : Option String :=
  match a with
  | some s => if strTruthy s then some s else b
  | none => b

/-- JavaScript `a || d` where `d` is a plain string default. -/
def jsOrDefault (a : Option String) (d : String) : String :=
  match a with
  | some s => if strTruthy s then s else d
  | none => d

/-- Process environment as read at startup: `process.env.PRIVATE_KEY`,
`process.env.NETWORK`, `process.env.MAX_PAYMENT_USDC`. -/
structure Env where
  privateKey : Option String
  network : Option String
  maxPaymentUsdc : Option String

/-- `chain = NETWORK === "base" ? base : baseSepolia`, then `chain.name`;
the viem chain objects have names "Base" and "Base Sepolia". -/
def chainNameOf (network : String) : String :=
  if network = "base" then "Base" else "Base Sepolia"

/-- Startup configuration held by the running process (src/index.js lines
15-35): the private key, the `NETWORK` variable after its default, the
derived chain name, and the raw `MAX_PAYMENT_USDC` string after its
default. -/
structure Config where
  privateKey : String
  networkVar : String
  chainName : String
  maxPaymentStr : String
deriving DecidableEq

/-- Result of the startup sequence: either `process.exit(code)` after the
diagnostic message, or a running server configured with `Config` (tools are
served only in the second case). -/
inductive Startup where
  | exit (code : Nat) (msg : String)
  | running (cfg : Config)
deriving DecidableEq

/-- Startup (src/index.js lines 15-35): read `PRIVATE_KEY` and `NETWORK`
(defaulted with `||` to "baseSepolia"), exit 1 with a diagnostic when
`PRIVATE_KEY` is falsy, otherwise derive the chain and the payment ceiling
string and run the server. -/
def startup (e : Env) : Startup :=
  let network := jsOrDefault e.network "baseSepolia"
  match e.privateKey with
  | none => Startup.exit 1 "PRIVATE_KEY environment variable is required"
  | some k =>
    if strTruthy k then
      Startup.running
        { privateKey := k
          networkVar := network
          chainName := chainNameOf network
          maxPaymentStr := jsOrDefault e.maxPaymentUsdc "1000000" }
    else Startup.exit 1 "PRIVATE_KEY environment variable is required"

/-- Header list lookup, modelling `response.headers.get(name)`: first pair
with the given (normalized lower-case) name, `null` when absent. -/
def headersGet (hs : List (String × String)) (name : String) : Option String :=
  (hs.find? (fun p => p.1 = name)).map (fun p => p.2)

/-- Whether the first list occurs as an initial segment of the second
(helper for substring search). -/
def listIsPref : List Char → List Char → Bool
  | [], _ => true
  | _ :: _, [] => false
  | c :: cs, d :: ds => c == d && listIsPref cs ds

/-- Whether `pat` occurs somewhere inside `s` (helper for substring
search). -/
def hasSubList (pat : List Char) : List Char → Bool
  | [] => pat.isEmpty
  | c :: cs => listIsPref pat (c :: cs) || hasSubList pat cs

/-- JavaScript `s.includes(pat)` on strings. -/
def containsSub (s pat : String) : Bool := hasSubList pat.data s.data

/-- A final HTTP response as the handler sees it.  `jsonContent` models the
result of `JSON.stringify(await response.json(), null, 2)` (which throws on
a malformed JSON body), `textContent` models `await response.text()`. -/
structure Response where
  status : Nat
  statusText : String
  headers : List (String × String)
  jsonContent : Except String String
  textContent : String

/-- Content formatting (src/index.js lines 122-127): pretty-printed JSON
when the content type contains "application/json", raw text otherwise. -/
def contentOf (r : Response) : Except String String :=
  let contentType := jsOrDefault (headersGet r.headers "content-type") ""
  if containsSub contentType "application/json" then r.jsonContent
  else Except.ok r.textContent

/-- Settlement header lookup (src/index.js lines 130-132):
`paymentResponse || paymentResponseAlt`, the primary name
"x-payment-response" first, the alias "payment-response" as the `||`
fallback. -/
def actualPaymentResponse (r : Response) : Option String :=
  jsOr (headersGet r.headers "x-payment-response")
    (headersGet r.headers "payment-response")

/-- A successfully parsed settlement value, `JSON.parse(atob(value))`:
field `amount` (a number, absent when the key is missing), optional
`txHash`, optional `settled`. -/
structure Decoded where
  amount : Option Nat
  txHash : Option String
  settled : Option Bool
deriving DecidableEq

/-- JavaScript truthiness of a nullable number (`null` and `0` are falsy). -/
def optNatTruthy : Option Nat → Bool
  | some n => n != 0
  | none => false

/-- JavaScript truthiness of a nullable boolean, as used by
`decoded.settled || false`. -/
def optBoolTruthy : Option Bool → Bool
  | some b => b
  | none => false

/-- Left-pad a digit string with zeros to length `k`. -/
def padZeros (k : Nat) (s : String) : String :=
  String.mk (List.replicate (k - s.length) '0') ++ s

/-- `(Number(n) / 1000000).toFixed(6)` for a settlement amount `n` in
smallest units: the exact decimal rendering with six fractional digits
(exact for every amount in the USDC range, where the double division
rounds to the correct six-decimal value). -/
def toFixed6 (n : Nat) : String :=
  toString (n / 1000000) ++ "." ++ padZeros 6 (toString (n % 1000000))

/-- The `payment` object of a successful outcome. -/
structure PaymentInfo where
  txHash : Option String
  amount : Option String
  amountRaw : Option Nat
  network : String
  settled : Bool
deriving DecidableEq

/-- Build `paymentInfo` from a decoded settlement value (src/index.js lines
138-145): `amount` is the six-decimal USDC rendering when `decoded.amount`
is truthy, `amountRaw` is `decoded.amount || null`, `txHash` is
`decoded.txHash || null`, `network` is always the configured `chain.name`,
`settled` is `decoded.settled || false`. -/
def mkPaymentInfo (chainName : String) (d : Decoded) : PaymentInfo :=
  let amountUsdc : Option String :=
    if optNatTruthy d.amount then d.amount.map toFixed6 else none
  { txHash := jsOr d.txHash none
    amount := amountUsdc.map (fun s => s ++ " USDC")
    amountRaw := if optNatTruthy d.amount then d.amount else none
    network := chainName
    settled := optBoolTruthy d.settled }

/-- The structured outcome serialized into the tool reply.  `none` fields
model keys that the corresponding JavaScript object literal does not
carry. -/
structure Outcome where
  success : Bool
  status : Option Nat
  statusText : Option String
  paymentMade : Option Bool
  payment : Option PaymentInfo
  content : Option String
  error : Option String
deriving DecidableEq

/-- The failure outcome produced by the façade catch block (src/index.js
lines 176-189): `success:false` and the error message, nothing else. -/
def errorOutcome (msg : String) : Outcome :=
  { success := false, status := none, statusText := none, paymentMade := none
    payment := none, content := none, error := some msg }

/-- Arguments of an `x402_fetch` tool call after destructuring
(src/index.js line 100): `method` and `body` may be absent. -/
structure FetchArgs where
  url : String
  method : Option String
  headers : List (String × String)
  body : Option String

/-- The `fetchOptions` object passed to the wrapped fetch. -/
structure FetchOptions where
  method : String
  headers : List (String × String)
  body : Option String

/-- Build `fetchOptions` (src/index.js lines 103-110): method defaults to
"GET"; the body is attached only when it is truthy and the method is POST,
PUT or PATCH. -/
def mkFetchOptions (a : FetchArgs) : FetchOptions :=
  let method := a.method.getD "GET"
  { method := method
    headers := a.headers
    body :=
      match a.body with
      | some b =>
        if strTruthy b = true ∧ (method = "POST" ∨ method = "PUT" ∨ method = "PATCH")
        then some b else none
      | none => none }

/-- The external world of one handler run: the wrapped payment-aware fetch
(`x402Fetch(url, options)`, which may throw), and the settlement decoding
`JSON.parse(atob(value))` (`none` models a thrown decode error). -/
structure World where
  fetch : String → FetchOptions → Except String Response
  decodeSettlement : String → Option Decoded

/-- The settlement branch of the handler (src/index.js lines 134-156):
when the looked-up header value is truthy, decode it inside the inner
try/catch — success builds `paymentInfo` and logs the payment, a decode
throw logs the raw value and leaves `paymentInfo` null; a falsy value logs
that no payment was made.  Returns the `paymentInfo` and the log lines of
the branch. -/
def settlementStep (chainName : String) (dec : String → Option Decoded)
    (apr : Option String) : Option PaymentInfo × List String :=
  if optStrTruthy apr then
    match dec (apr.getD "") with
    | some d =>
      let pi := mkPaymentInfo chainName d
      (some pi,
        ["[x402-fetch] PAYMENT MADE!",
         "[x402-fetch]    TX Hash: " ++ jsOrDefault pi.txHash "N/A",
         "[x402-fetch]    Amount: " ++ jsOrDefault pi.amount "N/A",
         "[x402-fetch]    Network: " ++ pi.network,
         "[x402-fetch]    Settled: " ++ toString pi.settled])
    | none =>
      (none, ["[x402-fetch] Payment response (raw): " ++ apr.getD ""])
  else
    (none, ["[x402-fetch] No payment was required or made"])

/-- The `x402_fetch` tool handler (src/index.js lines 99-189): build the
fetch options, run the wrapped fetch, format the content, look up and
decode the settlement header, and return the structured outcome; every
throw inside the try block is caught and converted to `errorOutcome`.  The
second component is the `console.error` log trace.  As a total Lean
function it returns a structured outcome on every input: no exception
crosses the tool boundary. -/
def handler (cfg : Config) (account : String) (a : FetchArgs) (w : World) :
    Outcome × List String :=
  let opts := mkFetchOptions a
  let logs0 :=
    ["[x402-fetch] ========================================",
     "[x402-fetch] Fetching: " ++ opts.method ++ " " ++ a.url,
     "[x402-fetch] Wallet: " ++ account]
  match w.fetch a.url opts with
  | Except.error e => (errorOutcome e, logs0)
  | Except.ok resp =>
    let contentType := jsOrDefault (headersGet resp.headers "content-type") ""
    let logs1 := logs0 ++
      ["[x402-fetch] Response status: " ++ toString resp.status ++ " " ++
         resp.statusText,
       "[x402-fetch] Content-Type: " ++ contentType]
    match contentOf resp with
    | Except.error e => (errorOutcome e, logs1)
    | Except.ok content =>
      let apr := actualPaymentResponse resp
      let step := settlementStep cfg.chainName w.decodeSettlement apr
      let logsF := logs1 ++ step.2 ++
        ["[x402-fetch] Content length: " ++ toString content.length ++ " chars",
         "[x402-fetch] ========================================"]
      ({ success := true
         status := some resp.status
         statusText := some resp.statusText
         paymentMade := some (optStrTruthy apr)
         payment := step.1
         content := some content
         error := none }, logsF)

/-- A payment requirement decoded from a 402 challenge, as the spec
describes it: network identifier, required amount in smallest units
(signed, so that a zero-or-negative amount can be rejected), and whether
the requirement is expired at evaluation time. -/
structure Requirement where
  network : String
  amount : Int
  expired : Bool
deriving DecidableEq

/-- Result of one wrapped-fetch call: the final response, or a typed
error. -/
inductive RetryResult where
  | ok (r : Response)
  | err (msg : String)

/-- Modelled from the spec: the challenge-retry client is
`wrapFetchWithPayment` from the external x402-fetch package (src/index.js
line 35 only calls it), so its body is absent from src/.  Following
section 4.3 of the spec: a non-402 first response is returned as-is with
no payment; a 402 response has its requirement decoded (decode failure or
a non-positive amount is `MalformedChallenge`); the policy rejects on
ceiling exceeded, network mismatch, or expiry (`PaymentDeclined`);
otherwise exactly one payment is signed and attached to one retried
request, and a second 402 on that retry is `DoublePaymentChallenge`,
never a second payment.  The second component counts the payments
attempted. -/
def challengeRetry (ceiling : Int) (network : String)
    (decodeChallenge : Response → Option Requirement)
    (first retried : Response) : RetryResult × Nat :=
  if first.status ≠ 402 then (RetryResult.ok first, 0)
  else
    match decodeChallenge first with
    | none => (RetryResult.err "MalformedChallenge", 0)
    | some req =>
      if req.amount ≤ 0 then (RetryResult.err "MalformedChallenge", 0)
      else if req.amount > ceiling then
        (RetryResult.err "PaymentDeclined: ceiling-exceeded", 0)
      else if req.network ≠ network then
        (RetryResult.err "PaymentDeclined: network-mismatch", 0)
      else if req.expired then
        (RetryResult.err "PaymentDeclined: expired", 0)
      else if retried.status = 402 then
        (RetryResult.err "DoublePaymentChallenge", 1)
      else (RetryResult.ok retried, 1)

/-! Concrete fixtures used by the witness theorems. -/

/-- A sample configured server (NETWORK unset, so Base Sepolia). -/
def cfgSample : Config :=
  { privateKey := "0xkey", networkVar := "baseSepolia"
    chainName := "Base Sepolia", maxPaymentStr := "1000000" }

/-- Sample tool-call arguments: a plain GET with no body. -/
def argsSample : FetchArgs :=
  { url := "https://example.com/page", method := none, headers := [], body := none }

/-- A plain-text 200 response with no settlement header. -/
def respFree : Response :=
  { status := 200, statusText := "OK"
    headers := [("content-type", "text/plain")]
    jsonContent := Except.error "Unexpected token"
    textContent := "hello" }

/-- A plain-text 200 response carrying a settlement header value
"PAYLOAD". -/
def respPaid : Response :=
  { status := 200, statusText := "OK"
    headers := [("content-type", "text/plain"), ("x-payment-response", "PAYLOAD")]
    jsonContent := Except.error "Unexpected token"
    textContent := "paid content" }

/-- A 402 challenge response. -/
def respChallenge : Response :=
  { status := 402, statusText := "Payment Required"
    headers := [], jsonContent := Except.error "Unexpected token"
    textContent := "payment required" }

/-- A sample decoded settlement receipt: 0.5 USDC, settled. -/
def decodedSample : Decoded :=
  { amount := some 500000, txHash := some "0xabc123", settled := some true }

/-- A world whose wrapped fetch always yields the given response and whose
settlement decoding is the given function. -/
def worldOf (r : Response) (dec : String → Option Decoded) : World :=
  { fetch := fun _ _ => Except.ok r, decodeSettlement := dec }

/-- A world whose wrapped fetch throws with the given message. -/
def worldThrow (msg : String) : World :=
  { fetch := fun _ _ => Except.error msg, decodeSettlement := fun _ => none }

/-- C1 counterexample: the claim says the fallback value is used only when
the primary header is absent, but JavaScript `||` also falls through on a
present-but-empty primary value: with "x-payment-response" present holding
"" and "payment-response" holding "abc", the lookup yields "abc", not the
primary value. -/
theorem settlement_lookup_primary_cex :
    headersGet [("x-payment-response", ""), ("payment-response", "abc")]
      "x-payment-response" = some "" ∧
    actualPaymentResponse
      { status := 200, statusText := "OK"
        headers := [("x-payment-response", ""), ("payment-response", "abc")]
        jsonContent := Except.ok "j", textContent := "t" } = some "abc" ∧
    ("abc" : String) ≠ "" := by
  refine ⟨rfl, rfl, by decide⟩

/-- C1 (amended): the settlement lookup checks the primary name
"x-payment-response" first and the alias "payment-response" second,
using the fallback value exactly when the primary is JavaScript-falsy
(absent or empty), and never merging the two values: the result is one of
the two lookups. -/
theorem settlement_lookup_order (r : Response) :
    (optStrTruthy (headersGet r.headers "x-payment-response") = true →
      actualPaymentResponse r = headersGet r.headers "x-payment-response") ∧
    (optStrTruthy (headersGet r.headers "x-payment-response") = false →
      actualPaymentResponse r = headersGet r.headers "payment-response") := by
  cases h : headersGet r.headers "x-payment-response" with
  | none => simp [actualPaymentResponse, jsOr, optStrTruthy, h]
  | some s =>
    cases ht : strTruthy s <;>
      simp [actualPaymentResponse, jsOr, optStrTruthy, h, ht]

/-- C1 witness: on the sample paid response the primary header is truthy
and its value is returned. -/
theorem settlement_lookup_order_witness :
    optStrTruthy (headersGet respPaid.headers "x-payment-response") = true ∧
    actualPaymentResponse respPaid =
      headersGet respPaid.headers "x-payment-response" :=
  ⟨rfl, (settlement_lookup_order respPaid).1 rfl⟩

/-- C5: when the PRIVATE_KEY environment variable is absent, startup exits
with code 1 and the diagnostic message; no configuration is built, so no
tool is ever served. -/
theorem missing_private_key_exits (e : Env) (h : e.privateKey = none) :
    startup e = Startup.exit 1 "PRIVATE_KEY environment variable is required" := by
  unfold startup
  rw [h]

/-- C5 witness: the empty environment exits with code 1. -/
theorem missing_private_key_exits_witness :
    startup { privateKey := none, network := none, maxPaymentUsdc := none } =
      Startup.exit 1 "PRIVATE_KEY environment variable is required" :=
  missing_private_key_exits _ rfl

/-- C8: a supplied body is attached to the issued request only when the
method (after the "GET" default) is POST, PUT or PATCH; for every other
method the body is silently omitted. -/
theorem body_attached_only_for_write_methods (a : FetchArgs) :
    (¬(a.method.getD "GET" = "POST" ∨ a.method.getD "GET" = "PUT" ∨
        a.method.getD "GET" = "PATCH") → (mkFetchOptions a).body = none) ∧
    ((mkFetchOptions a).body ≠ none →
      (a.method.getD "GET" = "POST" ∨ a.method.getD "GET" = "PUT" ∨
        a.method.getD "GET" = "PATCH")) := by
  cases hb : a.body with
  | none => exact ⟨fun _ => by simp [mkFetchOptions, hb], fun hne =>
      absurd (by simp [mkFetchOptions, hb]) hne⟩
  | some b =>
    constructor
    · intro hm
      simp only [mkFetchOptions, hb]
      rw [if_neg (fun hc => hm hc.2)]
    · intro hne
      by_contra hm
      exact hne (by simp only [mkFetchOptions, hb]; rw [if_neg (fun hc => hm hc.2)])

/-- C8 witness: a GET call (defaulted method) with a supplied body issues
a request without a body. -/
theorem body_attached_only_for_write_methods_witness :
    (mkFetchOptions
      { url := "https://example.com/page", method := none, headers := []
        body := some "payload" }).body = none :=
  (body_attached_only_for_write_methods
    { url := "https://example.com/page", method := none, headers := []
      body := some "payload" }).1 (by decide)

/-- C3: every throw from the wrapped fetch or from reading/formatting the
content is caught by the façade try/catch and converted into the
structured failure outcome carrying the message; the handler is a total
function, so nothing crosses the tool boundary as an unhandled fault. -/
theorem facade_catches_exceptions (cfg : Config) (account : String)
    (a : FetchArgs) (w : World) (e : String)
    (h : w.fetch a.url (mkFetchOptions a) = Except.error e ∨
      ∃ resp, w.fetch a.url (mkFetchOptions a) = Except.ok resp ∧
        contentOf resp = Except.error e) :
    (handler cfg account a w).1 = errorOutcome e := by
  cases h with
  | inl h => simp [handler, h]
  | inr h =>
    obtain ⟨resp, h1, h2⟩ := h
    simp [handler, h1, h2]

/-- C3 witness: a world whose fetch throws "network down" yields the
structured failure outcome. -/
theorem facade_catches_exceptions_witness :
    (handler cfgSample "0xWallet" argsSample (worldThrow "network down")).1 =
      errorOutcome "network down" :=
  facade_catches_exceptions cfgSample "0xWallet" argsSample
    (worldThrow "network down") "network down" (Or.inl rfl)

/-- C4: when the final response carries no settlement header under either
candidate name, the outcome is a success with paymentMade false, payment
null, the response status and statusText, and the formatted content
unmodified. -/
theorem no_settlement_header_outcome (cfg : Config) (account : String)
    (a : FetchArgs) (w : World) (resp : Response) (content : String)
    (hf : w.fetch a.url (mkFetchOptions a) = Except.ok resp)
    (hc : contentOf resp = Except.ok content)
    (h1 : headersGet resp.headers "x-payment-response" = none)
    (h2 : headersGet resp.headers "payment-response" = none) :
    (handler cfg account a w).1 =
      { success := true, status := some resp.status
        statusText := some resp.statusText, paymentMade := some false
        payment := none, content := some content, error := none } := by
  simp [handler, hf, hc, actualPaymentResponse, jsOr, h1, h2,
    settlementStep, optStrTruthy]

/-- C4 witness: a free plain-text response yields success with no payment
and the raw text content. -/
theorem no_settlement_header_outcome_witness :
    (handler cfgSample "0xWallet" argsSample
      (worldOf respFree (fun _ => none))).1 =
      { success := true, status := some 200, statusText := some "OK"
        paymentMade := some false, payment := none
        content := some "hello", error := none } :=
  no_settlement_header_outcome cfgSample "0xWallet" argsSample
    (worldOf respFree (fun _ => none)) respFree "hello" rfl rfl rfl rfl

/-- C2: when the settlement header is present (truthy) but its value fails
to decode, the raw value is logged and the outcome is still a success
carrying the response status and the formatted content, never an error
outcome. -/
theorem malformed_settlement_nonfatal (cfg : Config) (account : String)
    (a : FetchArgs) (w : World) (resp : Response) (content s : String)
    (hf : w.fetch a.url (mkFetchOptions a) = Except.ok resp)
    (hc : contentOf resp = Except.ok content)
    (ha : actualPaymentResponse resp = some s)
    (hs : s ≠ "")
    (hd : w.decodeSettlement s = none) :
    (handler cfg account a w).1.success = true ∧
    (handler cfg account a w).1.status = some resp.status ∧
    (handler cfg account a w).1.content = some content ∧
    (handler cfg account a w).1.error = none ∧
    ("[x402-fetch] Payment response (raw): " ++ s) ∈
      (handler cfg account a w).2 := by
  simp [handler, hf, hc, ha, settlementStep, optStrTruthy, strTruthy, hs, hd]

/-- C2 witness: an undecodable "PAYLOAD" settlement value still yields a
success outcome with the content, and the raw value is logged. -/
theorem malformed_settlement_nonfatal_witness :
    (handler cfgSample "0xWallet" argsSample
      (worldOf respPaid (fun _ => none))).1.success = true ∧
    (handler cfgSample "0xWallet" argsSample
      (worldOf respPaid (fun _ => none))).1.status = some 200 ∧
    (handler cfgSample "0xWallet" argsSample
      (worldOf respPaid (fun _ => none))).1.content = some "paid content" ∧
    (handler cfgSample "0xWallet" argsSample
      (worldOf respPaid (fun _ => none))).1.error = none ∧
    ("[x402-fetch] Payment response (raw): " ++ "PAYLOAD") ∈
      (handler cfgSample "0xWallet" argsSample
        (worldOf respPaid (fun _ => none))).2 :=
  malformed_settlement_nonfatal cfgSample "0xWallet" argsSample
    (worldOf respPaid (fun _ => none)) respPaid "paid content" "PAYLOAD"
    rfl rfl rfl (by decide) rfl

/-- C10: when the settlement header is present (truthy) but its value
fails to decode, the outcome reports paymentMade true while payment is
null: the flag follows the header presence, not decodability. -/
theorem paymentMade_follows_header_presence (cfg : Config) (account : String)
    (a : FetchArgs) (w : World) (resp : Response) (content s : String)
    (hf : w.fetch a.url (mkFetchOptions a) = Except.ok resp)
    (hc : contentOf resp = Except.ok content)
    (ha : actualPaymentResponse resp = some s)
    (hs : s ≠ "")
    (hd : w.decodeSettlement s = none) :
    (handler cfg account a w).1.paymentMade = some true ∧
    (handler cfg account a w).1.payment = none := by
  simp [handler, hf, hc, ha, settlementStep, optStrTruthy, strTruthy, hs, hd]

/-- C10 witness: the undecodable "PAYLOAD" settlement value yields
paymentMade true with payment null. -/
theorem paymentMade_follows_header_presence_witness :
    (handler cfgSample "0xWallet" argsSample
      (worldOf respPaid (fun _ => none))).1.paymentMade = some true ∧
    (handler cfgSample "0xWallet" argsSample
      (worldOf respPaid (fun _ => none))).1.payment = none :=
  paymentMade_follows_header_presence cfgSample "0xWallet" argsSample
    (worldOf respPaid (fun _ => none)) respPaid "paid content" "PAYLOAD"
    rfl rfl rfl (by decide) rfl

/-- C6: for a decoded settlement whose amount is a nonzero n, the
outcome's payment.amount is the six-decimal rendering of n divided by
1000000 followed by " USDC", and payment.amountRaw is the undivided n. -/
theorem payment_amount_six_decimals (cfg : Config) (account : String)
    (a : FetchArgs) (w : World) (resp : Response) (content s : String)
    (d : Decoded) (n : Nat)
    (hf : w.fetch a.url (mkFetchOptions a) = Except.ok resp)
    (hc : contentOf resp = Except.ok content)
    (ha : actualPaymentResponse resp = some s)
    (hs : s ≠ "")
    (hd : w.decodeSettlement s = some d)
    (hn : d.amount = some n) (hn0 : n ≠ 0) :
    (handler cfg account a w).1.payment =
      some (mkPaymentInfo cfg.chainName d) ∧
    (mkPaymentInfo cfg.chainName d).amount = some (toFixed6 n ++ " USDC") ∧
    (mkPaymentInfo cfg.chainName d).amountRaw = some n := by
  refine ⟨?_, ?_, ?_⟩
  · simp [handler, hf, hc, ha, settlementStep, optStrTruthy, strTruthy, hs, hd]
  · simp [mkPaymentInfo, optNatTruthy, hn, hn0]
  · simp [mkPaymentInfo, optNatTruthy, hn, hn0]

/-- C6 witness: amount 500000 yields payment.amount "0.500000 USDC" and
amountRaw 500000 (definitional evaluation of the six-decimal rendering). -/
theorem payment_amount_six_decimals_witness :
    (handler cfgSample "0xWallet" argsSample
      (worldOf respPaid (fun _ => some decodedSample))).1.payment =
      some (mkPaymentInfo cfgSample.chainName decodedSample) ∧
    (mkPaymentInfo cfgSample.chainName decodedSample).amount =
      some "0.500000 USDC" ∧
    (mkPaymentInfo cfgSample.chainName decodedSample).amountRaw =
      some 500000 :=
  payment_amount_six_decimals cfgSample "0xWallet" argsSample
    (worldOf respPaid (fun _ => some decodedSample)) respPaid "paid content"
    "PAYLOAD" decodedSample 500000 rfl rfl rfl (by decide) rfl rfl
    (by decide)

/-- Helper: a running configuration carries the chain name derived from
the NETWORK environment variable. -/
lemma startup_running_chainName (e : Env) (cfg : Config)
    (hst : startup e = Startup.running cfg) :
    cfg.chainName = chainNameOf (jsOrDefault e.network "baseSepolia") := by
  cases hk : e.privateKey with
  | none => simp [startup, hk] at hst
  | some k =>
    cases ht : strTruthy k with
    | false => simp [startup, hk, ht] at hst
    | true =>
      simp [startup, hk, ht] at hst
      rw [← hst]

/-- C9: for every successfully decoded settlement receipt, the outcome's
payment.network is the chain name derived from the NETWORK environment
variable at startup — the same for every decoded value, never read from
the settlement content. -/
theorem payment_network_is_configured_chain (e : Env) (cfg : Config)
    (account : String) (a : FetchArgs) (w : World) (resp : Response)
    (content s : String) (d : Decoded)
    (hst : startup e = Startup.running cfg)
    (hf : w.fetch a.url (mkFetchOptions a) = Except.ok resp)
    (hc : contentOf resp = Except.ok content)
    (ha : actualPaymentResponse resp = some s)
    (hs : s ≠ "")
    (hd : w.decodeSettlement s = some d) :
    (handler cfg account a w).1.payment =
      some (mkPaymentInfo cfg.chainName d) ∧
    (mkPaymentInfo cfg.chainName d).network =
      chainNameOf (jsOrDefault e.network "baseSepolia") := by
  constructor
  · simp [handler, hf, hc, ha, settlementStep, optStrTruthy, strTruthy, hs, hd]
  · rw [mkPaymentInfo, startup_running_chainName e cfg hst]

/-- C9 witness: with NETWORK unset the configured chain is Base Sepolia
and the decoded receipt reports that network. -/
theorem payment_network_is_configured_chain_witness :
    (handler cfgSample "0xWallet" argsSample
      (worldOf respPaid (fun _ => some decodedSample))).1.payment =
      some (mkPaymentInfo cfgSample.chainName decodedSample) ∧
    (mkPaymentInfo cfgSample.chainName decodedSample).network =
      chainNameOf (jsOrDefault none "baseSepolia") :=
  payment_network_is_configured_chain
    { privateKey := some "0xkey", network := none, maxPaymentUsdc := none }
    cfgSample "0xWallet" argsSample
    (worldOf respPaid (fun _ => some decodedSample)) respPaid "paid content"
    "PAYLOAD" decodedSample rfl rfl rfl rfl (by decide) rfl

/-- C7 (spec-modelled): every run of the challenge-retry client attempts
at most one payment, and a second 402 challenge on the already-paid retry
is surfaced as the DoublePaymentChallenge error with exactly the one
payment already attempted, never a second payment. -/
theorem at_most_one_payment (ceiling : Int) (network : String)
    (dec : Response → Option Requirement) (first retried : Response) :
    (challengeRetry ceiling network dec first retried).2 ≤ 1 ∧
    (∀ req, first.status = 402 → dec first = some req → 0 < req.amount →
      req.amount ≤ ceiling → req.network = network → req.expired = false →
      retried.status = 402 →
      challengeRetry ceiling network dec first retried =
        (RetryResult.err "DoublePaymentChallenge", 1)) := by
  constructor
  · unfold challengeRetry
    split
    · simp
    · split
      · simp
      · split_ifs <;> simp
  · intro req h402 hdec hpos hceil hnet hexp h402b
    have h1 : ¬ req.amount ≤ 0 := by omega
    have h2 : ¬ req.amount > ceiling := by omega
    have h3 : ¬ req.network ≠ network := by simp [hnet]
    simp [challengeRetry, h402, hdec, h1, h2, h3, hexp, h402b]

/-- C7 witness: a 402 on the paid retry of an accepted 0.5 USDC challenge
yields DoublePaymentChallenge with a single attempted payment. -/
theorem at_most_one_payment_witness :
    (challengeRetry 1000000 "base-sepolia"
      (fun _ => some { network := "base-sepolia", amount := 500000, expired := false })
      respChallenge respChallenge).2 ≤ 1 ∧
    challengeRetry 1000000 "base-sepolia"
      (fun _ => some { network := "base-sepolia", amount := 500000, expired := false })
      respChallenge respChallenge =
      (RetryResult.err "DoublePaymentChallenge", 1) :=
  ⟨(at_most_one_payment 1000000 "base-sepolia"
      (fun _ => some { network := "base-sepolia", amount := 500000, expired := false })
      respChallenge respChallenge).1,
   (at_most_one_payment 1000000 "base-sepolia"
      (fun _ => some { network := "base-sepolia", amount := 500000, expired := false })
      respChallenge respChallenge).2
     { network := "base-sepolia", amount := 500000, expired := false }
     rfl rfl (by decide) (by decide) rfl rfl rfl⟩

end X402
